import Mathlib

/-!
# Verification of the fraud-detection scoring pipeline

Shallow embedding of the core of `app.py`: the transaction preprocessing
function `preprocess_transaction`, the risk/action policy and response
construction of `predict_single`, and the per-item batch loop of
`predict_batch`.

Modelling conventions:
* A pandas single-row DataFrame / Python dict is a `Row`: an association
  list from column names to `FieldValue`s.  JSON input supplies numbers
  (`FieldValue.num`, modelled as `ℚ`) or strings (`FieldValue.str`);
  `FieldValue.nan` arises only for derived columns whose timestamp failed
  to parse (pandas `NaN`/`NaT`).
* Python floats are modelled as `ℚ`; the threshold comparisons of the
  policy only involve short decimal literals.
* Fallible Python code (KeyError on a missing column, TypeError on
  string arithmetic, IndexError on `classes_[0]` of an empty encoder) is
  modelled with `Except String`; the string payload approximates the
  Python exception text.
* The fitted scaler and classifier are opaque artifacts loaded at
  startup; they are modelled as an abstract `Classifier` consuming the
  preprocessed row (the affine scaler is folded into it, since no claim
  inspects the scaled values).
-/

namespace FraudApp

instance instDecidableEqExcept {ε α : Type} [DecidableEq ε] [DecidableEq α] :
    DecidableEq (Except ε α) := fun x y =>
  match x, y with
  | .ok a, .ok b =>
    if h : a = b then isTrue (by rw [h]) else isFalse (by simp [h])
  | .error a, .error b =>
    if h : a = b then isTrue (by rw [h]) else isFalse (by simp [h])
  | .ok _, .error _ => isFalse (by simp)
  | .error _, .ok _ => isFalse (by simp)

/-- A single cell of a transaction record. -/
inductive FieldValue where
  | num (q : ℚ)
  | str (s : String)
  | nan
  deriving DecidableEq, Repr

/-- A transaction record / single DataFrame row: column name ↦ value. -/
abbrev Row := List (String × FieldValue)

/-- First binding of a key in an association list (`dict[k]` / `df[k]`). -/
def lookupKey {α : Type} (l : List (String × α)) (k : String) : Option α :=
  (l.find? (fun p => p.1 == k)).map Prod.snd

/-- Column read, `df[k]`. -/
def getCol (r : Row) (k : String) : Option FieldValue :=
  lookupKey r k

/-- Column write, `df[k] = v`: overwrite the first binding in place, or
append a new column. -/
def setCol : Row → String → FieldValue → Row
  | [], k, v => [(k, v)]
  | (k1, v1) :: rest, k, v =>
    if k1 = k then (k, v) :: rest else (k1, v1) :: setCol rest k v

/-- `df.drop(ks, axis=1, errors=ignore)`. -/
def dropCols (r : Row) (ks : List String) : Row :=
  r.filter (fun p => decide (p.1 ∉ ks))

/-- `fillna(0)` on one cell: replaces NaN by 0 and keeps everything else. -/
def fillVal : FieldValue → FieldValue
  | .nan => .num 0
  | v => v

/-- `df.fillna(0)` applied to a row. -/
def fillZero (r : Row) : Row :=
  r.map (fun p => (p.1, fillVal p.2))

/-- Numeric column read: KeyError when absent, TypeError when the value
does not support arithmetic. -/
def numCol (r : Row) (k : String) : Except String ℚ :=
  match getCol r k with
  | some (.num q) => .ok q
  | some _ => .error ("TypeError: " ++ k)
  | none => .error ("KeyError: " ++ k)

/-! ## Timestamps

`pd.to_datetime(..., format=DD/MM/YYYY HH:MM, errors=coerce)`: strict
format, unparseable input becomes `NaT` (here: `none`).  Dates are
proleptic Gregorian; day 0 of the count is 01/01/0001, a Monday, so
`totalDays % 7` matches the pandas `dayofweek` convention (Monday = 0). -/

/-- Gregorian leap-year test. -/
def isLeap (y : ℕ) : Bool :=
  (y % 4 == 0 && y % 100 != 0) || y % 400 == 0

/-- Number of days of month `m` in year `y`. -/
def daysInMonth (y m : ℕ) : ℕ :=
  if m = 2 then (if isLeap y then 29 else 28)
  else if m = 4 ∨ m = 6 ∨ m = 9 ∨ m = 11 then 30 else 31

/-- Days in all years strictly before year `y` (years count from 1). -/
def daysBeforeYear (y : ℕ) : ℕ :=
  365 * (y - 1) + (y - 1) / 4 - (y - 1) / 100 + (y - 1) / 400

/-- Days in all months of year `y` strictly before month `m`. -/
def daysBeforeMonth (y m : ℕ) : ℕ :=
  (List.range (m - 1)).foldl (fun acc i => acc + daysInMonth y (i + 1)) 0

/-- A successfully parsed `DD/MM/YYYY HH:MM` timestamp. -/
structure DateTime where
  year : ℕ
  month : ℕ
  day : ℕ
  hh : ℕ
  mi : ℕ
  deriving DecidableEq, Repr

/-- Days since 01/01/0001. -/
def DateTime.totalDays (t : DateTime) : ℕ :=
  daysBeforeYear t.year + daysBeforeMonth t.year t.month + (t.day - 1)

/-- Minutes since 01/01/0001 00:00. -/
def DateTime.totalMinutes (t : DateTime) : ℕ :=
  (t.totalDays * 24 + t.hh) * 60 + t.mi

/-- pandas `dayofweek`: Monday = 0 … Sunday = 6. -/
def DateTime.dayOfWeek (t : DateTime) : ℕ :=
  t.totalDays % 7

/-- Split a character list on a separator character (the semantics of
`String.splitOn` for a one-character separator, written by structural
recursion). -/
def splitOnCharAux (c : Char) : List Char → List Char → List (List Char)
  | [], acc => [acc.reverse]
  | x :: xs, acc =>
    if x = c then acc.reverse :: splitOnCharAux c xs []
    else splitOnCharAux c xs (x :: acc)

/-- Split on a separator character. -/
def splitOnChar (c : Char) (l : List Char) : List (List Char) :=
  splitOnCharAux c l []

/-- Decimal digit value of a run of digit characters (`int(s)`), `none`
when empty or containing a non-digit. -/
def digitsToNatAux : List Char → ℕ → Option ℕ
  | [], acc => some acc
  | ch :: rest, acc =>
    if ch.isDigit then digitsToNatAux rest (acc * 10 + (ch.toNat - 48))
    else none

/-- `int` of a nonempty digit string. -/
def digitsToNat? : List Char → Option ℕ
  | [] => none
  | ch :: rest => digitsToNatAux (ch :: rest) 0

/-- Strict `DD/MM/YYYY HH:MM` parse; `none` models `NaT`. -/
def parseDateTime (s : String) : Option DateTime :=
  match splitOnChar ' ' s.toList with
  | [datePart, timePart] =>
    match splitOnChar '/' datePart with
    | [ds, ms, ys] =>
      match splitOnChar ':' timePart with
      | [hs, mins] =>
        match digitsToNat? ds, digitsToNat? ms, digitsToNat? ys,
              digitsToNat? hs, digitsToNat? mins with
        | some d, some m, some y, some hh, some mi =>
          if 1 ≤ y ∧ 1 ≤ m ∧ m ≤ 12 ∧ 1 ≤ d ∧ d ≤ daysInMonth y m ∧ hh ≤ 23 ∧ mi ≤ 59
          then some ⟨y, m, d, hh, mi⟩ else none
        | _, _, _, _, _ => none
      | _ => none
    | _ => none
  | _ => none

/-- `pd.to_datetime` of one cell: non-string cells coerce to `NaT`. -/
def parseTS : FieldValue → Option DateTime
  | .str s => parseDateTime s
  | _ => none

/-! ## Median (pandas `Series.median`, NaN skipped) -/

/-- pandas median of the non-NaN values: middle element of the sorted
list, or the mean of the two middle elements; `none` on an empty list. -/
def median (l : List ℚ) : Option ℚ :=
  let s := l.insertionSort (· ≤ ·)
  if s.length = 0 then none
  else if s.length % 2 = 1 then s[s.length / 2]?
  else
    match s[s.length / 2 - 1]?, s[s.length / 2]? with
    | some a, some b => some ((a + b) / 2)
    | _, _ => none

/-! ## Encoder registry (`le_dict` of fitted `LabelEncoder`s) -/

/-- A fitted `LabelEncoder`: its sorted `classes_` array.  The code of a
category is its index in `classes`. -/
structure LabelEnc where
  classes : List String
  deriving DecidableEq, Repr

/-- `le_dict`: categorical column name ↦ fitted encoder. -/
abbrev Registry := List (String × LabelEnc)

/-- The categorical columns of `preprocess_transaction`. -/
def categoricalCols : List String :=
  ["TransactionType", "Location", "Channel",
   "CustomerOccupation", "Sender Country", "Receiver Country",
   "Sender Currency", "Receiver Currency", "Account Status",
   "Invalid Pin Status"]

/-- The substitution lambda `x if x in known_classes else classes_[0]`
applied to one cell (non-string cells are never members of the class
set, hence fall back too); `classes_[0]` of an empty encoder raises
IndexError. -/
def substFallback (classes : List String) (v : FieldValue) : Except String String :=
  match v with
  | .str s =>
    if classes.contains s then .ok s
    else
      match classes with
      | [] => .error "IndexError"
      | c0 :: _ => .ok c0
  | _ =>
    match classes with
    | [] => .error "IndexError"
    | c0 :: _ => .ok c0

/-- `LabelEncoder.transform` of one value: its index in `classes_`,
raising on a label the encoder has never seen. -/
def transform (classes : List String) (s : String) : Except String ℕ :=
  match classes.findIdx? (fun c => c == s) with
  | some i => .ok i
  | none => .error "unseen label"

/-- One iteration of the encoding loop: `if col in df.columns and col in
le_dict`, then substitute-and-transform the column, else leave the row
untouched. -/
def encodeCol (reg : Registry) (r : Row) (c : String) : Except String Row :=
  match getCol r c, lookupKey reg c with
  | some v, some e =>
    match substFallback e.classes v with
    | .error m => .error m
    | .ok s =>
      match transform e.classes s with
      | .error m => .error m
      | .ok code => .ok (setCol r c (.num (code : ℚ)))
  | _, _ => .ok r

/-- The `for col in categorical_cols` loop. -/
def encodeCols (reg : Registry) : List String → Row → Except String Row
  | [], r => .ok r
  | c :: cs, r =>
    match encodeCol reg r c with
    | .error m => .error m
    | .ok r1 => encodeCols reg cs r1

/-- Categorical encoding step of `preprocess_transaction`. -/
def encodeCats (reg : Registry) (r : Row) : Except String Row :=
  encodeCols reg categoricalCols r

/-! ## Preprocessing (`preprocess_transaction`) -/

/-- The per-row `HoursSincePrevTransaction` delta:
`(TransactionDate - PreviousTransactionDate).total_seconds() / 3600`,
`none` (NaN) when either timestamp failed to parse; KeyError when either
column is absent. -/
def rowDelta (r : Row) : Except String (Option ℚ) :=
  match getCol r "TransactionDate", getCol r "PreviousTransactionDate" with
  | some tdv, some pdv =>
    match parseTS tdv, parseTS pdv with
    | some t1, some t2 =>
      .ok (some ((((t1.totalMinutes : ℤ) - (t2.totalMinutes : ℤ) : ℤ) : ℚ) / 60))
    | _, _ => .ok none
  | none, _ => .error "KeyError: TransactionDate"
  | some _, none => .error "KeyError: PreviousTransactionDate"

/-- `Option ℕ` cell for the derived time features (NaN when `NaT`). -/
def optNat : Option ℕ → FieldValue
  | some n => .num (n : ℚ)
  | none => .nan

/-- The derived-feature column assignments of `preprocess_transaction`
(lines 117–135), in source order: `Hour`, `DayOfWeek`, `Month`,
`IsWeekend`, `IsNightTime`, `HoursSincePrevTransaction` (delta already
filled with the median substitute), `AmountToBalanceRatio`,
`IsCrossBorder`, `IsCurrencyMismatch`.  NaN-vs-number comparisons of
pandas (`NaN >= 5` is False) show up as the `none` cases. -/
def derivedCols (r : Row) (td : Option DateTime) (hoursVal ratio : ℚ)
    (sctry rctry scur rcur : FieldValue) : Row :=
  let hour := td.map DateTime.hh
  let dow := td.map DateTime.dayOfWeek
  let month := td.map DateTime.month
  let isWeekend : ℚ := match dow with
    | some d => if 5 ≤ d then 1 else 0
    | none => 0
  let isNight : ℚ := match hour with
    | some h => if 22 ≤ h ∨ h ≤ 6 then 1 else 0
    | none => 0
  let r1 := setCol r "Hour" (optNat hour)
  let r2 := setCol r1 "DayOfWeek" (optNat dow)
  let r3 := setCol r2 "Month" (optNat month)
  let r4 := setCol r3 "IsWeekend" (.num isWeekend)
  let r5 := setCol r4 "IsNightTime" (.num isNight)
  let r6 := setCol r5 "HoursSincePrevTransaction" (.num hoursVal)
  let r7 := setCol r6 "AmountToBalanceRatio" (.num ratio)
  let r8 := setCol r7 "IsCrossBorder" (.num (if sctry ≠ rctry then 1 else 0))
  setCol r8 "IsCurrencyMismatch" (.num (if scur ≠ rcur then 1 else 0))

/-- Body of `preprocess_transaction` for one row of the frame, given the
frame-level median substitute `medianHours` for a missing delta:
temporal features, delta fill, ratio and flag features, categorical
encoding, dropping the raw timestamp columns, `fillna(0)`.  (The parsed
timestamp columns themselves are dropped before the function returns, so
they are not stored in the row.) -/
def processRow (reg : Registry) (medianHours : ℚ) (r : Row) : Except String Row :=
  match rowDelta r with
  | .error m => .error m
  | .ok delta =>
    match numCol r "TransactionAmount", numCol r "AccountBalance" with
    | .ok amount, .ok balance =>
      match getCol r "Sender Country", getCol r "Receiver Country",
            getCol r "Sender Currency", getCol r "Receiver Currency" with
      | some sctry, some rctry, some scur, some rcur =>
        match encodeCats reg
            (derivedCols r ((getCol r "TransactionDate").bind parseTS)
              (delta.getD medianHours) (amount / (balance + 1)) sctry rctry scur rcur) with
        | .error m => .error m
        | .ok r10 =>
          .ok (fillZero (dropCols r10 ["TransactionDate", "PreviousTransactionDate"]))
      | _, _, _, _ => .error "KeyError: country or currency column"
    | .error m, _ => .error m
    | _, .error m => .error m

/-- The `HoursSincePrevTransaction` deltas of every row of a frame. -/
def deltasOf : List Row → Except String (List (Option ℚ))
  | [] => .ok []
  | r :: rs =>
    match rowDelta r with
    | .error m => .error m
    | .ok d =>
      match deltasOf rs with
      | .error m => .error m
      | .ok ds => .ok (d :: ds)

/-- Error-propagating map of `processRow` over the rows of a frame. -/
def processRows (reg : Registry) (medianHours : ℚ) : List Row → Except String (List Row)
  | [] => .ok []
  | r :: rs =>
    match processRow reg medianHours r with
    | .error m => .error m
    | .ok r1 =>
      match processRows reg medianHours rs with
      | .error m => .error m
      | .ok rs1 => .ok (r1 :: rs1)

/-- `preprocess_transaction` on a whole DataFrame: the median substitute
for missing deltas is the median of the delta column over the whole
frame (NaN skipped), or 168 when that median is NaN. -/
def preprocessFrame (reg : Registry) (rows : List Row) : Except String (List Row) :=
  match deltasOf rows with
  | .error m => .error m
  | .ok ds =>
    processRows reg ((median (ds.filterMap id)).getD 168) rows

/-- `preprocess_transaction(data)` on a dict: the dict becomes a
single-row frame (`pd.DataFrame([data])`), so the median is taken over
that one row alone. -/
def preprocess_transaction (reg : Registry) (data : Row) : Except String Row :=
  match preprocessFrame reg [data] with
  | .ok [r] => .ok r
  | .ok _ => .error "internal"
  | .error m => .error m

/-- Whether an `Except` is a success. -/
def isOkE (x : Except String Row) : Bool :=
  match x with
  | .ok _ => true
  | .error _ => false

/-- The payload of a successful `Except` (junk `[]` on error). -/
def okOr (x : Except String Row) : Row :=
  match x with
  | .ok r => r
  | .error _ => []

/-- The median of the `HoursSincePrevTransaction` deltas computed once
over a whole batch of records, NaN deltas skipped — the quantity of
lines 124–129 of `app.py` evaluated over a multi-record frame. -/
def wholeBatchMedian (rows : List Row) : Except String (Option ℚ) :=
  match deltasOf rows with
  | .error m => .error m
  | .ok ds => .ok (median (ds.filterMap id))

/-- The `HoursSincePrevTransaction` value a record receives during batch
scoring, where `predict_batch` preprocesses each record by its own
`preprocess_transaction` call. -/
def batchHoursValue (reg : Registry) (t : Row) : Option FieldValue :=
  match preprocess_transaction reg t with
  | .ok row => getCol row "HoursSincePrevTransaction"
  | .error _ => none

/-! ## Risk & Action Policy (`predict_single` lines 291–317) -/

/-- Python `round(x, 2)` (the float-rounding detail is abstracted to
round-half-up on ℚ; every claim about this value concerns its range or
its decimal value, not the half-way tie direction). -/
def round2 (x : ℚ) : ℚ :=
  ((round (x * 100) : ℤ) : ℚ) / 100

/-- Risk-level bands of `predict_single` / `predict_batch`. -/
def risk_level (p : ℚ) : String :=
  if p < 3/10 then "Low"
  else if p < 6/10 then "Medium"
  else "High"

/-- Risk colour assigned alongside the risk level. -/
def risk_color (p : ℚ) : String :=
  if p < 3/10 then "green"
  else if p < 6/10 then "yellow"
  else "red"

/-- Action policy of `predict_single`. -/
def action (prediction : Bool) (probability : ℚ) : String :=
  if prediction = true ∧ probability > 7/10 then "BLOCK"
  else if prediction = true ∨ probability > 1/2 then "REVIEW"
  else "ALLOW"

/-- The `prediction_data` dict of `predict_single` (also the prediction
block of the response, which repeats the same values): note that the
`probability` field is `round(probability * 100, 2)`, a percentage. -/
structure PredictionData where
  is_fraud : Bool
  probability : ℚ
  risk_level : String
  confidence : ℚ
  action : String
  deriving DecidableEq, Repr

/-- Construction of `prediction_data` from the classifier output. -/
def mkPredictionData (prediction : Bool) (p : ℚ) : PredictionData :=
  { is_fraud := prediction
    probability := round2 (p * 100)
    risk_level := risk_level p
    confidence := if prediction = false then round2 ((1 - p) * 100) else round2 (p * 100)
    action := action prediction p }

/-! ## Scoring engine and persistence gateway (opaque collaborators) -/

/-- The opaque fitted scaler and classifier, folded together: `label`
is `model.predict(scaler.transform(row))`, `proba` the positive-class
entry of `model.predict_proba`. -/
structure Classifier where
  predict : Row → Bool
  proba : Row → ℚ

/-- The loaded artifacts (`model`/`scaler` and `le_dict`). -/
structure Artifacts where
  reg : Registry
  clf : Classifier

/-- The persistence gateway as seen by `predict_single`: whether the
database is connected (`db_connected and DATABASE_AVAILABLE`), and the
outcomes of `FraudTransaction.create` and `FraudAlert.create`. -/
structure Gateway where
  connected : Bool
  saveTransaction : Except String ℕ
  saveAlert : ℕ → Except String ℕ

/-- Outcome of the database section of `predict_single` (lines 319–350):
`db_save_status` starts `not_attempted`, becomes `success` after the
transaction write, and is overwritten with `failed: …` by any exception
of the try-block; `transaction_id`/`alert_id` keep whatever was assigned
before the exception. -/
structure DbSection where
  transaction_id : Option ℕ
  alert_id : Option ℕ
  db_save_status : String
  deriving DecidableEq, Repr

/-- The database section of `predict_single`. -/
def runDbSave (gw : Gateway) (prediction : Bool) (p : ℚ) : DbSection :=
  if gw.connected then
    match gw.saveTransaction with
    | .error e => ⟨none, none, "failed: " ++ e⟩
    | .ok tid =>
      if prediction = true ∧ p > 7/10 then
        match gw.saveAlert tid with
        | .ok aid => ⟨some tid, some aid, "success"⟩
        | .error e => ⟨some tid, none, "failed: " ++ e⟩
      else ⟨some tid, none, "success"⟩
  else ⟨none, none, "not_attempted"⟩

/-! ## Single-transaction endpoint (`predict_single`) -/

/-- The response body of a successful `/api/predict` call (the repeated
prediction fields are consolidated into `prediction`; the recommendation
action equals `prediction.action`). -/
structure SingleResponse where
  success : Bool
  transaction_id : Option ℕ
  alert_id : Option ℕ
  database_save_status : String
  prediction : PredictionData
  fraud_label : String
  risk_color : String
  recommendation_message : String
  deriving DecidableEq, Repr

/-- An HTTP outcome: JSON body plus status code, or an error body. -/
inductive ApiOutcome (α : Type) where
  | ok (body : α) (code : ℕ)
  | err (error msg : String) (code : ℕ)
  deriving DecidableEq, Repr

/-- The 19 required raw fields of `/api/predict`. -/
def requiredFields : List String :=
  ["TransactionAmount", "TransactionDate", "TransactionType",
   "Location", "Channel", "CustomerAge", "CustomerOccupation",
   "TransactionDuration", "LoginAttempts", "AccountBalance",
   "PreviousTransactionDate", "Sender Country", "Receiver Country",
   "Sender Currency", "Receiver Currency", "Account Status",
   "Invalid Pin Status", "Invalid pin retry limits", "Invalid pin retry count"]

/-- `[field for field in required_fields if field not in data]`. -/
def missingFields (data : Row) : List String :=
  requiredFields.filter (fun f => (getCol data f).isNone)

/-- `/api/predict`: artifact check (503), empty-body and required-field
validation (400), preprocessing + scoring (exceptions become a 500),
policy, best-effort persistence, and the 200 response. -/
def predict_single (arts : Option Artifacts) (gw : Gateway) (data : Row) :
    ApiOutcome SingleResponse :=
  match arts with
  | none => .err "Models not loaded" "Please ensure all model files are available" 503
  | some a =>
    if data = [] then
      .err "No data provided" "Please send transaction data as JSON" 400
    else if missingFields data ≠ [] then
      .err "Missing required fields" "see missing_fields" 400
    else
      match preprocess_transaction a.reg data with
      | .error m => .err "Prediction failed" m 500
      | .ok row =>
        let prediction := a.clf.predict row
        let p := a.clf.proba row
        let db := runDbSave gw prediction p
        .ok
          { success := true
            transaction_id := db.transaction_id
            alert_id := db.alert_id
            database_save_status := db.db_save_status
            prediction := mkPredictionData prediction p
            fraud_label := if prediction = true then "FRAUD DETECTED" else "LEGITIMATE"
            risk_color := risk_color p
            recommendation_message :=
              if prediction = true then
                "Transaction flagged as fraudulent. Immediate review required."
              else "Transaction appears legitimate. Safe to proceed." }
          200

/-- The prediction block of a successful single response. -/
def singlePrediction : ApiOutcome SingleResponse → Option PredictionData
  | .ok r _ => some r.prediction
  | .err _ _ _ => none

/-! ## Batch endpoint (`predict_batch`) -/

/-- One entry of the batch `results` list: either a scored item
(`transaction_id` = 1-based index, prediction fields, and the echoed
amount/type via `transaction.get`) or a failed item carrying the
exception text. -/
inductive BatchItem where
  | ok (transaction_id : ℕ) (is_fraud : Bool) (fraud_label : String) (probability : ℚ)
      (risk_level : String) (amount : Option FieldValue) (ttype : Option FieldValue)
  | failed (transaction_id : ℕ) (error : String)
  deriving DecidableEq, Repr

/-- `transaction_id` of a batch result item. -/
def BatchItem.tid : BatchItem → ℕ
  | .ok i _ _ _ _ _ _ => i
  | .failed i _ => i

/-- Whether a batch item was scored (no `error` key). -/
def BatchItem.isOk : BatchItem → Bool
  | .ok _ _ _ _ _ _ _ => true
  | .failed _ _ => false

/-- `is_fraud` of a scored batch item. -/
def BatchItem.fraud : BatchItem → Bool
  | .ok _ f _ _ _ _ _ => f
  | .failed _ _ => false

/-- The try-block body of the batch loop for the item of 0-based index
`idx`: any preprocessing exception becomes a failed entry, otherwise the
item is scored. -/
def processBatchItem (reg : Registry) (clf : Classifier) (idx : ℕ) (t : Row) : BatchItem :=
  match preprocess_transaction reg t with
  | .error e => .failed (idx + 1) e
  | .ok row =>
    let prediction := clf.predict row
    let p := clf.proba row
    .ok (idx + 1) prediction (if prediction = true then "FRAUD" else "LEGITIMATE")
      (round2 (p * 100)) (risk_level p)
      (getCol t "TransactionAmount") (getCol t "TransactionType")

/-- The `for idx, transaction in enumerate(transactions)` loop, started
at index `k`. -/
def batchResultsAux (reg : Registry) (clf : Classifier) : ℕ → List Row → List BatchItem
  | _, [] => []
  | k, t :: ts => processBatchItem reg clf k t :: batchResultsAux reg clf (k + 1) ts

/-- The summary block of the batch response. -/
structure BatchSummary where
  total_transactions : ℕ
  processed : ℕ
  failed : ℕ
  fraud_detected : ℕ
  legitimate : ℕ
  fraud_percentage : ℚ
  deriving DecidableEq, Repr

/-- The body of a batch response. -/
structure BatchResponse where
  success : Bool
  summary : BatchSummary
  results : List BatchItem
  deriving DecidableEq, Repr

/-- `/api/predict/batch` after its input validation: score every item,
then compute the summary over the successfully processed ones. -/
def predict_batch (reg : Registry) (clf : Classifier) (txns : List Row) : BatchResponse :=
  let results := batchResultsAux reg clf 0 txns
  let successful := results.filter BatchItem.isOk
  let fraud_count := (successful.filter BatchItem.fraud).length
  { success := true
    summary :=
      { total_transactions := txns.length
        processed := successful.length
        failed := txns.length - successful.length
        fraud_detected := fraud_count
        legitimate := successful.length - fraud_count
        fraud_percentage :=
          if successful ≠ [] then
            round2 ((fraud_count : ℚ) / (successful.length : ℚ) * 100)
          else 0 }
    results := results }

/-! ## Concrete example data (from the repository's `/api/example`) -/

/-- The example legitimate transaction served by `/api/example`. -/
def exTxn : Row :=
  [ ("TransactionAmount", .num 150),
    ("TransactionDate", .str "15/09/2024 14:30"),
    ("TransactionType", .str "Withdrawal"),
    ("Location", .str "New York"),
    ("Channel", .str "ATM"),
    ("CustomerAge", .num 35),
    ("CustomerOccupation", .str "Teacher"),
    ("TransactionDuration", .num 45),
    ("LoginAttempts", .num 1),
    ("AccountBalance", .num 5000),
    ("PreviousTransactionDate", .str "10/09/2024 10:20"),
    ("Sender Country", .str "USA"),
    ("Receiver Country", .str "USA"),
    ("Sender Currency", .str "USD"),
    ("Receiver Currency", .str "USD"),
    ("Account Status", .str "Active"),
    ("Invalid Pin Status", .str "Valid"),
    ("Invalid pin retry limits", .num 3),
    ("Invalid pin retry count", .num 0) ]

/-- `exTxn` with a 24-hour gap between the two timestamps. -/
def txA : Row :=
  setCol (setCol exTxn "TransactionDate" (.str "16/09/2024 10:00"))
    "PreviousTransactionDate" (.str "15/09/2024 10:00")

/-- `exTxn` with an unparseable previous-transaction timestamp, so its
`HoursSincePrevTransaction` delta is uncomputable. -/
def txB : Row :=
  setCol exTxn "PreviousTransactionDate" (.str "not a date")

/-- `exTxn` with `AccountBalance = -1`, the balance that zeroes the
ratio denominator. -/
def txNeg : Row :=
  setCol exTxn "AccountBalance" (.num (-1))

/-- A small encoder registry holding an entry for `Channel`. -/
def exReg : Registry :=
  [("Channel", ⟨["ATM", "Branch", "Online"]⟩)]

/-- A classifier stub that always reports fraud with probability 0.85. -/
def clf85 : Classifier :=
  ⟨fun _ => true, fun _ => 17/20⟩

/-- A classifier stub that always reports legitimate with probability
0.2. -/
def clf20 : Classifier :=
  ⟨fun _ => false, fun _ => 1/5⟩

/-- A gateway with no database connected. -/
def gwOff : Gateway :=
  ⟨false, .ok 1, fun _ => .ok 1⟩

/-- A connected gateway whose transaction write fails. -/
def gwFail : Gateway :=
  ⟨true, .error "db down", fun _ => .ok 1⟩



/-- Whether a cell value is among an encoder's known categories
(`x in known_classes`; non-string cells never are). -/
def isKnownValue (v : FieldValue) (classes : List String) : Bool :=
  match v with
  | .str s => classes.contains s
  | _ => false

/-- A transaction lacking almost every required field; its preprocessing
raises a KeyError. -/
def badTxn : Row := [("TransactionAmount", .num 1)]

/-- `exTxn` carrying a `Channel` value the `exReg` encoder has never
seen. -/
def txMobile : Row := setCol exTxn "Channel" (.str "Mobile")

/-- A concrete three-item batch whose middle item raises during
preprocessing. -/
def batch3 : List Row := [exTxn, badTxn, exTxn]

/-! ## Column-tracking lemmas -/


theorem lookupKey_cons {α : Type} (k1 : String) (v1 : α) (t : List (String × α)) (k : String) :
    lookupKey ((k1, v1) :: t) k = if k1 = k then some v1 else lookupKey t k := by
  unfold lookupKey
  by_cases h : k1 = k
  · subst h
    rw [List.find?_cons_of_pos _ (by simp)]
    simp
  · rw [List.find?_cons_of_neg _ (by simp [h]), if_neg h]

theorem getCol_cons (k1 : String) (v1 : FieldValue) (t : Row) (k : String) :
    getCol ((k1, v1) :: t) k = if k1 = k then some v1 else getCol t k :=
  lookupKey_cons k1 v1 t k

theorem getCol_setCol_self (r : Row) (k : String) (v : FieldValue) :
    getCol (setCol r k v) k = some v := by
  induction r with
  | nil => simp [setCol, getCol_cons]
  | cons p t ih =>
    obtain ⟨k1, v1⟩ := p
    by_cases h : k1 = k
    · subst h
      simp [setCol, getCol_cons]
    · simp only [setCol, if_neg h, getCol_cons]
      exact ih

theorem getCol_setCol_ne (r : Row) (k k' : String) (v : FieldValue) (hk : k' ≠ k) :
    getCol (setCol r k v) k' = getCol r k' := by
  induction r with
  | nil => simp [setCol, getCol_cons, getCol, lookupKey, Ne.symm hk]
  | cons p t ih =>
    obtain ⟨k1, v1⟩ := p
    by_cases h : k1 = k
    · subst h
      simp [setCol, getCol_cons, Ne.symm hk]
    · simp only [setCol, if_neg h, getCol_cons]
      by_cases h2 : k1 = k'
      · simp [h2]
      · rw [if_neg h2, if_neg h2]
        exact ih

theorem dropCols_cons (k1 : String) (v1 : FieldValue) (t : Row) (ks : List String) :
    dropCols ((k1, v1) :: t) ks =
      if k1 ∈ ks then dropCols t ks else (k1, v1) :: dropCols t ks := by
  simp only [dropCols, List.filter_cons]
  by_cases h : k1 ∈ ks
  · simp [h]
  · simp [h]

theorem getCol_dropCols_not_mem (r : Row) (ks : List String) (k : String) (hk : k ∉ ks) :
    getCol (dropCols r ks) k = getCol r k := by
  induction r with
  | nil => simp [dropCols]
  | cons p t ih =>
    obtain ⟨k1, v1⟩ := p
    rw [dropCols_cons]
    by_cases h : k1 ∈ ks
    · have hne : k1 ≠ k := fun he => hk (he ▸ h)
      rw [if_pos h, ih, getCol_cons, if_neg hne]
    · rw [if_neg h, getCol_cons, getCol_cons]
      by_cases h2 : k1 = k
      · simp [h2]
      · rw [if_neg h2, if_neg h2]
        exact ih

theorem getCol_fillZero (r : Row) (k : String) :
    getCol (fillZero r) k = (getCol r k).map fillVal := by
  induction r with
  | nil => simp [fillZero, getCol, lookupKey]
  | cons p t ih =>
    obtain ⟨k1, v1⟩ := p
    simp only [fillZero, List.map_cons] at ih ⊢
    rw [getCol_cons, getCol_cons]
    by_cases h : k1 = k
    · simp [h]
    · rw [if_neg h, if_neg h]
      exact ih

theorem encodeCol_ok_cases (reg : Registry) (r r' : Row) (c : String)
    (h : encodeCol reg r c = .ok r') :
    r' = r ∨ ∃ q : ℚ, r' = setCol r c (.num q) := by
  unfold encodeCol at h
  cases hg : getCol r c with
  | none =>
    cases hl : lookupKey reg c with
    | none => simp only [hg, hl] at h; simp at h; exact Or.inl h.symm
    | some e => simp only [hg, hl] at h; simp at h; exact Or.inl h.symm
  | some v =>
    cases hl : lookupKey reg c with
    | none => simp only [hg, hl] at h; simp at h; exact Or.inl h.symm
    | some e =>
      simp only [hg, hl] at h
      cases hs : substFallback e.classes v with
      | error m =>
        simp only [hs] at h
        exact (Except.noConfusion h)
      | ok s =>
        simp only [hs] at h
        cases ht : transform e.classes s with
        | error m =>
          simp only [ht] at h
          exact (Except.noConfusion h)
        | ok code =>
          simp only [ht] at h
          simp at h
          exact Or.inr ⟨(code : ℚ), h.symm⟩

theorem encodeCol_getCol_ne (reg : Registry) (r r' : Row) (c k : String)
    (h : encodeCol reg r c = .ok r') (hk : k ≠ c) :
    getCol r' k = getCol r k := by
  rcases encodeCol_ok_cases reg r r' c h with he | ⟨q, he⟩
  · rw [he]
  · rw [he, getCol_setCol_ne r c k _ hk]

theorem encodeCols_getCol (reg : Registry) (cols : List String) (k : String) :
    ∀ r r', encodeCols reg cols r = .ok r' → k ∉ cols → getCol r' k = getCol r k := by
  induction cols with
  | nil =>
    intro r r' h _
    simp [encodeCols] at h
    rw [h]
  | cons c cs ih =>
    intro r r' h hk
    simp only [encodeCols] at h
    cases h1 : encodeCol reg r c with
    | error m =>
      simp only [h1] at h
      exact (Except.noConfusion h)
    | ok r1 =>
      simp only [h1] at h
      have hkc : k ≠ c := fun he => hk (he ▸ List.mem_cons_self c cs)
      have hkcs : k ∉ cs := fun hm => hk (List.mem_cons_of_mem c hm)
      rw [ih r1 r' h hkcs, encodeCol_getCol_ne reg r r1 c k h1 hkc]


/-! ## Preprocessing specification lemmas -/


theorem median_nil : median [] = none := rfl

theorem median_singleton (x : ℚ) : median [x] = some x := by
  simp [median, List.insertionSort, List.orderedInsert]

theorem preprocess_single_eq (reg : Registry) (data : Row) :
    preprocess_transaction reg data =
      match rowDelta data with
      | .error m => .error m
      | .ok d => processRow reg ((median d.toList).getD 168) data := by
  unfold preprocess_transaction preprocessFrame
  cases hd : rowDelta data with
  | error m => simp [deltasOf, hd]
  | ok d =>
    simp only [deltasOf, hd]
    have hmed : ([d].filterMap id) = d.toList := by
      cases d <;> simp
    rw [hmed]
    simp only [processRows]
    cases hp : processRow reg ((median d.toList).getD 168) data with
    | error m => simp
    | ok r1 => simp [processRows]

theorem processRow_ok_spec (reg : Registry) (medH : ℚ) (r out : Row)
    (h : processRow reg medH r = .ok out) :
    ∃ (delta : Option ℚ) (amount balance : ℚ),
      rowDelta r = .ok delta ∧
      numCol r "TransactionAmount" = .ok amount ∧
      numCol r "AccountBalance" = .ok balance ∧
      getCol out "HoursSincePrevTransaction" = some (.num (delta.getD medH)) ∧
      getCol out "AmountToBalanceRatio" = some (.num (amount / (balance + 1))) := by
  unfold processRow at h
  cases hd : rowDelta r with
  | error m => simp only [hd] at h; exact (Except.noConfusion h)
  | ok delta =>
    simp only [hd] at h
    cases ha : numCol r "TransactionAmount" with
    | error m => simp only [ha] at h; exact (Except.noConfusion h)
    | ok amount =>
      simp only [ha] at h
      cases hb : numCol r "AccountBalance" with
      | error m => simp only [hb] at h; exact (Except.noConfusion h)
      | ok balance =>
        simp only [hb] at h
        cases h1 : getCol r "Sender Country" with
        | none => simp only [h1] at h; exact (Except.noConfusion h)
        | some sctry =>
          simp only [h1] at h
          cases h2 : getCol r "Receiver Country" with
          | none => simp only [h2] at h; exact (Except.noConfusion h)
          | some rctry =>
            simp only [h2] at h
            cases h3 : getCol r "Sender Currency" with
            | none => simp only [h3] at h; exact (Except.noConfusion h)
            | some scur =>
              simp only [h3] at h
              cases h4 : getCol r "Receiver Currency" with
              | none => simp only [h4] at h; exact (Except.noConfusion h)
              | some rcur =>
                simp only [h4] at h
                cases he : encodeCats reg
                    (derivedCols r ((getCol r "TransactionDate").bind parseTS)
                      (delta.getD medH) (amount / (balance + 1)) sctry rctry scur rcur) with
                | error m => simp only [he] at h; exact (Except.noConfusion h)
                | ok r10 =>
                  simp only [he] at h
                  have hout : out =
                      fillZero (dropCols r10 ["TransactionDate", "PreviousTransactionDate"]) := by
                    cases h; rfl
                  subst hout
                  refine ⟨delta, amount, balance, rfl, rfl, rfl, ?_, ?_⟩
                  · rw [getCol_fillZero, getCol_dropCols_not_mem _ _ _ (by decide),
                      encodeCols_getCol reg categoricalCols _ _ _ he (by decide)]
                    unfold derivedCols
                    rw [getCol_setCol_ne _ _ _ _ (by decide),
                      getCol_setCol_ne _ _ _ _ (by decide),
                      getCol_setCol_ne _ _ _ _ (by decide),
                      getCol_setCol_self]
                    rfl
                  · rw [getCol_fillZero, getCol_dropCols_not_mem _ _ _ (by decide),
                      encodeCols_getCol reg categoricalCols _ _ _ he (by decide)]
                    unfold derivedCols
                    rw [getCol_setCol_ne _ _ _ _ (by decide),
                      getCol_setCol_ne _ _ _ _ (by decide),
                      getCol_setCol_self]
                    rfl

theorem preprocess_ok_spec (reg : Registry) (t row : Row)
    (h : preprocess_transaction reg t = .ok row) :
    ∃ (d : Option ℚ) (amount balance : ℚ),
      rowDelta t = .ok d ∧
      numCol t "TransactionAmount" = .ok amount ∧
      numCol t "AccountBalance" = .ok balance ∧
      getCol row "HoursSincePrevTransaction" = some (.num (d.getD 168)) ∧
      getCol row "AmountToBalanceRatio" = some (.num (amount / (balance + 1))) := by
  rw [preprocess_single_eq] at h
  cases hd : rowDelta t with
  | error m => rw [hd] at h; exact (Except.noConfusion h)
  | ok d =>
    rw [hd] at h
    obtain ⟨d', a, b, hd', ha, hb, hh, hr⟩ := processRow_ok_spec _ _ _ _ h
    rw [hd] at hd'
    injection hd' with hdd
    subst hdd
    refine ⟨d, a, b, rfl, ha, hb, ?_, hr⟩
    cases d with
    | none => simpa [median_nil] using hh
    | some x => simpa [median_singleton] using hh


/-! ## Auxiliary lemmas for rounding, batch processing and success
extraction -/

theorem ok_of_isOkE (x : Except String Row) (h : isOkE x = true) : x = .ok (okOr x) := by
  cases x with
  | ok r => rfl
  | error m => simp [isOkE] at h

theorem round_eq_of (x : ℚ) (n : ℤ) (h1 : (n : ℚ) ≤ x + 1/2) (h2 : x + 1/2 < n + 1) :
    round x = n := by
  rw [round_eq]
  exact Int.floor_eq_iff.mpr ⟨h1, by push_cast; linarith⟩

theorem round2_mem (x : ℚ) (h0 : 0 ≤ x) (h1 : x ≤ 100) :
    0 ≤ round2 x ∧ round2 x ≤ 100 := by
  have hfl : ((⌊x * 100 + 1/2⌋ : ℤ) : ℚ) ≤ x * 100 + 1/2 := Int.floor_le _
  have hge : (0:ℤ) ≤ ⌊x * 100 + 1/2⌋ := Int.le_floor.mpr (by push_cast; linarith)
  have hle : ⌊x * 100 + 1/2⌋ ≤ 10000 := by
    by_contra hc
    push_neg at hc
    have h10 : ((10001:ℤ):ℚ) ≤ (⌊x * 100 + 1/2⌋ : ℚ) := by exact_mod_cast hc
    have : (10001:ℚ) ≤ x * 100 + 1/2 := le_trans h10 hfl
    linarith
  unfold round2
  rw [round_eq]
  constructor
  · apply div_nonneg _ (by norm_num)
    exact_mod_cast hge
  · rw [div_le_iff₀ (by norm_num : (0:ℚ) < 100)]
    have : ((⌊x * 100 + 1/2⌋ : ℤ) : ℚ) ≤ 10000 := by exact_mod_cast hle
    linarith

theorem batchResultsAux_get? (reg : Registry) (clf : Classifier) :
    ∀ (ts : List Row) (k i : ℕ) (t : Row), ts[i]? = some t →
      (batchResultsAux reg clf k ts)[i]? = some (processBatchItem reg clf (k + i) t) := by
  intro ts
  induction ts with
  | nil => intro k i t h; simp at h
  | cons x xs ih =>
    intro k i t h
    cases i with
    | zero =>
      simp only [List.getElem?_cons_zero, Option.some.injEq] at h
      subst h
      simp [batchResultsAux]
    | succ n =>
      simp only [List.getElem?_cons_succ] at h
      simp only [batchResultsAux, List.getElem?_cons_succ]
      have hr := ih (k + 1) n t h
      rw [hr]
      have : k + 1 + n = k + (n + 1) := by omega
      rw [this]

theorem batchResultsAux_length (reg : Registry) (clf : Classifier) :
    ∀ (ts : List Row) (k : ℕ), (batchResultsAux reg clf k ts).length = ts.length := by
  intro ts
  induction ts with
  | nil => intro k; rfl
  | cons x xs ih => intro k; simp [batchResultsAux, ih]

theorem processBatchItem_tid (reg : Registry) (clf : Classifier) (i : ℕ) (t : Row) :
    (processBatchItem reg clf i t).tid = i + 1 := by
  unfold processBatchItem
  cases hp : preprocess_transaction reg t <;> simp [BatchItem.tid]

theorem predict_batch_results (reg : Registry) (clf : Classifier) (txns : List Row) :
    (predict_batch reg clf txns).results = batchResultsAux reg clf 0 txns := rfl

/-! ## Claims -/

/-- C1: for every (label, probability) pair, the recommended action is
BLOCK iff label is true and probability > 0.70; otherwise REVIEW iff
label is true or probability > 0.50; otherwise ALLOW.  The BLOCK
boundary is exclusive (label true at exactly 0.70 gives REVIEW), and a
false label with probability > 0.50 still gives REVIEW.  The policy is a
pure function, so it is deterministic by construction. -/
theorem C1_action_policy (b : Bool) (p : ℚ) :
    (action b p = "BLOCK" ↔ b = true ∧ 7/10 < p)
  ∧ (action b p = "REVIEW" ↔ ¬(b = true ∧ 7/10 < p) ∧ (b = true ∨ 1/2 < p))
  ∧ (action b p = "ALLOW" ↔ ¬(b = true ∧ 7/10 < p) ∧ ¬(b = true ∨ 1/2 < p))
  ∧ action true (7/10) = "REVIEW"
  ∧ (action false p = "REVIEW" ↔ 1/2 < p) := by
  refine ⟨?_, ?_, ?_, ?_, ?_⟩
  · unfold action
    split_ifs with h1 h2 <;> simp_all
  · unfold action
    split_ifs with h1 h2 <;> simp_all
  · unfold action
    split_ifs with h1 h2 <;> simp_all
  · unfold action
    norm_num
  · unfold action
    norm_num
    constructor
    · intro himp
      by_contra hnp
      exact absurd (himp (not_lt.mp hnp)) (by decide)
    · intro hp hle
      exact absurd hp (not_lt.mpr hle)

/-- C2: for every probability, the risk level is Low iff p < 0.30,
Medium iff 0.30 ≤ p < 0.60 and High iff p ≥ 0.60; the boundaries 0.30
and 0.60 fall into Medium and High respectively, and the three bands
cover every probability (the iff characterisations make them mutually
exclusive). -/
theorem C2_risk_bands (p : ℚ) :
    (risk_level p = "Low" ↔ p < 3/10)
  ∧ (risk_level p = "Medium" ↔ 3/10 ≤ p ∧ p < 6/10)
  ∧ (risk_level p = "High" ↔ 6/10 ≤ p)
  ∧ risk_level (3/10) = "Medium"
  ∧ risk_level (6/10) = "High"
  ∧ (risk_level p = "Low" ∨ risk_level p = "Medium" ∨ risk_level p = "High") := by
  refine ⟨?_, ?_, ?_, ?_, ?_, ?_⟩
  · unfold risk_level
    split_ifs with h1 h2 <;> simp_all
  · unfold risk_level
    split_ifs with h1 h2 <;> simp_all <;> linarith
  · unfold risk_level
    split_ifs with h1 h2 <;> simp_all <;> linarith
  · unfold risk_level
    norm_num
  · unfold risk_level
    norm_num
  · unfold risk_level
    split_ifs <;> simp

/-- C3 (amended): batch scoring preprocesses each record by its own
single-record `preprocess_transaction` call, so the median of the
delta column is taken over that one record alone: a record whose delta
is uncomputable always receives 168 regardless of its siblings, and a
record with a computable delta keeps its own delta.  The batch-wide
median claimed by the specification is never used by the batch
endpoint. -/
theorem C3_per_record_median (reg : Registry) (t row : Row)
    (h : preprocess_transaction reg t = .ok row) :
    (rowDelta t = .ok none →
      getCol row "HoursSincePrevTransaction" = some (.num 168))
  ∧ (∀ x : ℚ, rowDelta t = .ok (some x) →
      getCol row "HoursSincePrevTransaction" = some (.num x)) := by
  obtain ⟨d, a, b, hd, _, _, hh, _⟩ := preprocess_ok_spec reg t row h
  constructor
  · intro h0
    rw [hd] at h0
    injection h0 with h0
    rw [h0] at hh
    simpa using hh
  · intro x hx
    rw [hd] at hx
    injection hx with hx
    rw [hx] at hh
    simpa using hh

/-- C3 (counterexample): in the batch `[txA, txB]`, `txA` has a
computable 24-hour delta, so the median over the whole batch is 24; yet
`txB`, whose delta is uncomputable, receives 168 from the per-record
preprocessing performed by the batch loop — not the batch median, and
168 is substituted although the batch does have a computable delta. -/
theorem C3_counterexample :
    wholeBatchMedian [txA, txB] = .ok (some 24)
  ∧ rowDelta txB = .ok none
  ∧ batchHoursValue [] txB = some (.num 168)
  ∧ (168 : ℚ) ≠ 24 := by
  have hA : rowDelta txA = .ok (some 24) := by
    have g1 : getCol txA "TransactionDate" = some (.str "16/09/2024 10:00") := by decide
    have g2 : getCol txA "PreviousTransactionDate" = some (.str "15/09/2024 10:00") := by decide
    have h1 : parseTS (FieldValue.str "16/09/2024 10:00") = some ⟨2024, 9, 16, 10, 0⟩ := by decide
    have h2 : parseTS (FieldValue.str "15/09/2024 10:00") = some ⟨2024, 9, 15, 10, 0⟩ := by decide
    have m1 : (DateTime.mk 2024 9 16 10 0).totalMinutes = 1064367960 := by decide
    have m2 : (DateTime.mk 2024 9 15 10 0).totalMinutes = 1064366520 := by decide
    rw [rowDelta, g1, g2]
    simp only [h1, h2, m1, m2]
    norm_num
  have hB : rowDelta txB = .ok none := by decide
  refine ⟨?_, hB, by decide, by norm_num⟩
  unfold wholeBatchMedian
  simp [deltasOf, hA, hB, median_singleton]

/-- C3 (witness): a concrete record with an unparseable previous
timestamp receives 168 when preprocessed on its own, as the batch loop
does. -/
theorem C3_witness :
    getCol (okOr (preprocess_transaction [] txB)) "HoursSincePrevTransaction"
      = some (.num 168) :=
  (C3_per_record_median [] txB (okOr (preprocess_transaction [] txB))
    (ok_of_isOkE _ (by decide))).1 (by decide)

/-- C4 (amended): in every scoring result, both the `probability` field
(`round(probability*100, 2)`, a percentage) and the `confidence` field
lie in [0, 100] whenever the classifier probability lies in [0, 1]; the
probability field is not the raw [0, 1] probability. -/
theorem C4_result_ranges (b : Bool) (p : ℚ) (h0 : 0 ≤ p) (h1 : p ≤ 1) :
    (0 ≤ (mkPredictionData b p).probability ∧ (mkPredictionData b p).probability ≤ 100)
  ∧ (0 ≤ (mkPredictionData b p).confidence ∧ (mkPredictionData b p).confidence ≤ 100) := by
  unfold mkPredictionData
  refine ⟨round2_mem _ (by linarith) (by linarith), ?_⟩
  simp only
  split_ifs
  · exact round2_mem _ (by linarith) (by linarith)
  · exact round2_mem _ (by linarith) (by linarith)

/-- C4 (counterexample): a successful scoring call with classifier
probability 0.85 reports `probability = 85.0` in its prediction block,
which is not in [0, 1] — the field holds a percentage. -/
theorem C4_counterexample :
    (mkPredictionData true (17/20)).probability = 85
  ∧ ¬((mkPredictionData true (17/20)).probability ≤ 1)
  ∧ singlePrediction (predict_single (some ⟨[], clf85⟩) gwOff exTxn) =
      some (mkPredictionData true (17/20)) := by
  have h85 : (mkPredictionData true (17/20)).probability = 85 := by
    show round2 (17/20 * 100) = 85
    unfold round2
    rw [show (17/20 * 100 : ℚ) * 100 = 8500 by norm_num]
    rw [round_eq_of 8500 8500 (by norm_num) (by norm_num)]
    norm_num
  refine ⟨h85, ?_, ?_⟩
  · rw [h85]
    norm_num
  · rfl

/-- C4 (witness): the amended range theorem instantiated at label false
and probability 0. -/
theorem C4_witness :
    (0 ≤ (mkPredictionData false 0).probability ∧ (mkPredictionData false 0).probability ≤ 100)
  ∧ (0 ≤ (mkPredictionData false 0).confidence ∧ (mkPredictionData false 0).confidence ≤ 100) :=
  C4_result_ranges false 0 (le_refl 0) zero_le_one

/-- C5: for a categorical field with a registry entry whose class list
is `c0 :: rest`, any value not among the known categories is silently
replaced by the first category `c0` and encoded to `c0`'s own fixed
code (its index, 0); no error is raised, and the function is pure, so
repeated calls agree. -/
theorem C5_unseen_fallback (reg : Registry) (r : Row) (c c0 : String) (rest : List String)
    (v : FieldValue)
    (hreg : lookupKey reg c = some ⟨c0 :: rest⟩)
    (hcol : getCol r c = some v)
    (hunseen : isKnownValue v (c0 :: rest) = false) :
    encodeCol reg r c = .ok (setCol r c (.num 0)) ∧ transform (c0 :: rest) c0 = .ok 0 := by
  have htr : transform (c0 :: rest) c0 = .ok 0 := by
    unfold transform
    simp [List.findIdx?_cons]
  have hsub : substFallback (c0 :: rest) v = .ok c0 := by
    cases v with
    | str s =>
      have hc : (c0 :: rest).contains s = false := hunseen
      simp only [substFallback, hc]
      simp
    | num q => rfl
    | nan => rfl
  refine ⟨?_, htr⟩
  unfold encodeCol
  rw [hcol, hreg]
  simp only [hsub, htr]
  norm_num

/-- C5 (witness): the unseen value `Mobile` for `Channel` is replaced by
the fallback category `ATM` and encoded to its code 0. -/
theorem C5_witness :
    encodeCol exReg txMobile "Channel" = .ok (setCol txMobile "Channel" (.num 0))
  ∧ transform ["ATM", "Branch", "Online"] "ATM" = .ok 0 :=
  C5_unseen_fallback exReg txMobile "Channel" "ATM" ["Branch", "Online"]
    (.str "Mobile") (by decide) (by decide) (by decide)

/-- C6 (amended): a categorical field that is absent from the loaded
encoder registry does not make preprocessing fail — the encoding loop
silently skips the field and leaves its raw value in place; no
ConfigurationError exists in the code at this point (the only
configuration failure is the service-level 503 when the artifacts
themselves are not loaded). -/
theorem C6_missing_encoder_skipped (reg : Registry) (r : Row) (c : String)
    (hcat : c ∈ categoricalCols)
    (hnone : lookupKey reg c = none) :
    encodeCol reg r c = .ok r := by
  unfold encodeCol
  cases hg : getCol r c <;> simp [hg, hnone]

/-- C6 (counterexample): with an empty registry (no field has an
entry), preprocessing of the example transaction succeeds and its
`Channel` column keeps the raw string — no error of any kind is
raised. -/
theorem C6_counterexample :
    isOkE (preprocess_transaction [] exTxn) = true
  ∧ getCol (okOr (preprocess_transaction [] exTxn)) "Channel" = some (.str "ATM") :=
  ⟨by decide, by decide⟩

/-- C6 (witness): the encoding loop leaves the row unchanged for the
required field `Channel` when the registry lacks it. -/
theorem C6_witness : encodeCol [] exTxn "Channel" = .ok exTxn :=
  C6_missing_encoder_skipped [] exTxn "Channel" (by decide) (by decide)

/-- C7: the batch results list has exactly one entry per submitted
transaction; an item whose preprocessing raises is reported as a failed
entry carrying its 1-based index and the error message, and an item
whose preprocessing succeeds is scored normally — siblings are
unaffected and the batch is never aborted. -/
theorem C7_batch_isolation (reg : Registry) (clf : Classifier) (txns : List Row) :
    (predict_batch reg clf txns).results.length = txns.length
  ∧ (∀ (i : ℕ) (t : Row) (e : String), txns[i]? = some t →
      preprocess_transaction reg t = .error e →
      (predict_batch reg clf txns).results[i]? = some (BatchItem.failed (i + 1) e))
  ∧ (∀ (i : ℕ) (t row : Row), txns[i]? = some t → preprocess_transaction reg t = .ok row →
      (predict_batch reg clf txns).results[i]? =
        some (BatchItem.ok (i + 1) (clf.predict row)
          (if clf.predict row = true then "FRAUD" else "LEGITIMATE")
          (round2 (clf.proba row * 100)) (risk_level (clf.proba row))
          (getCol t "TransactionAmount") (getCol t "TransactionType"))) := by
  refine ⟨?_, ?_, ?_⟩
  · rw [predict_batch_results, batchResultsAux_length]
  · intro i t e ht he
    rw [predict_batch_results, batchResultsAux_get? reg clf txns 0 i t ht]
    simp [processBatchItem, he]
  · intro i t row ht hok
    rw [predict_batch_results, batchResultsAux_get? reg clf txns 0 i t ht]
    simp [processBatchItem, hok]

/-- C7 (witness): a three-item batch whose middle item raises yields a
results list of length 3 with item 2 marked failed. -/
theorem C7_witness :
    (predict_batch [] clf85 batch3).results.length = 3
  ∧ (predict_batch [] clf85 batch3).results[1]? =
      some (BatchItem.failed 2 "KeyError: TransactionDate") :=
  ⟨((C7_batch_isolation [] clf85 batch3).1).trans (by decide),
    (C7_batch_isolation [] clf85 batch3).2.1 1 badTxn "KeyError: TransactionDate"
      (by decide) (by decide)⟩

/-- C8: when scoring succeeds but the persistence write fails, the
single-transaction response is still a 200 success carrying the
already-computed prediction data unchanged, together with a
`failed: …` database-save status; the scoring result is never discarded
because of the persistence failure. -/
theorem C8_persistence_failure (reg : Registry) (clf : Classifier)
    (sa : ℕ → Except String ℕ) (data row : Row) (e : String)
    (hmiss : missingFields data = [])
    (hpre : preprocess_transaction reg data = .ok row) :
    predict_single (some ⟨reg, clf⟩) ⟨true, .error e, sa⟩ data =
      .ok
        { success := true
          transaction_id := none
          alert_id := none
          database_save_status := "failed: " ++ e
          prediction := mkPredictionData (clf.predict row) (clf.proba row)
          fraud_label := if clf.predict row = true then "FRAUD DETECTED" else "LEGITIMATE"
          risk_color := risk_color (clf.proba row)
          recommendation_message :=
            if clf.predict row = true then
              "Transaction flagged as fraudulent. Immediate review required."
            else "Transaction appears legitimate. Safe to proceed." }
        200 := by
  have hne : data ≠ [] := by
    intro h0
    rw [h0] at hmiss
    exact absurd hmiss (by decide)
  simp only [predict_single]
  dsimp only
  rw [if_neg hne, if_neg (by simp [hmiss]), hpre]
  simp [runDbSave]

/-- C8 (witness): the example transaction scored by the 0.85-fraud
classifier against a connected gateway whose transaction write fails
still yields a 200 success with the intact prediction and a `failed:`
status. -/
theorem C8_witness :
    predict_single (some ⟨[], clf85⟩) ⟨true, .error "db down", fun _ => .ok 1⟩ exTxn =
      .ok
        { success := true
          transaction_id := none
          alert_id := none
          database_save_status := "failed: db down"
          prediction := mkPredictionData true (17/20)
          fraud_label := "FRAUD DETECTED"
          risk_color := risk_color (17/20)
          recommendation_message :=
            "Transaction flagged as fraudulent. Immediate review required." }
        200 :=
  C8_persistence_failure [] clf85 (fun _ => .ok 1) exTxn
    (okOr (preprocess_transaction [] exTxn)) "db down" (by decide)
    (ok_of_isOkE _ (by decide))

/-- C9 (amended): the derived feature `AmountToBalanceRatio` equals
amount / (balance + 1); the denominator is nonzero for every balance
other than −1 (in particular for every nonnegative balance), but the
input is not validated, so a client-supplied balance of −1 does make
the denominator zero — the +1 only guards the zero-balance case. -/
theorem C9_ratio (reg : Registry) (t row : Row) (a b : ℚ)
    (h : preprocess_transaction reg t = .ok row)
    (ha : numCol t "TransactionAmount" = .ok a)
    (hb : numCol t "AccountBalance" = .ok b) :
    getCol row "AmountToBalanceRatio" = some (.num (a / (b + 1)))
  ∧ (b ≠ -1 → b + 1 ≠ 0)
  ∧ (0 ≤ b → b + 1 ≠ 0) := by
  obtain ⟨d, a', b', hd, ha', hb', hh, hr⟩ := preprocess_ok_spec reg t row h
  rw [ha] at ha'
  injection ha' with h1
  rw [hb] at hb'
  injection hb' with h2
  subst h1
  subst h2
  refine ⟨hr, ?_, ?_⟩
  · intro hne hc
    exact hne (by linarith)
  · intro h0 hc
    have : b = -1 := by linarith
    linarith

/-- C9 (counterexample): the transaction with `AccountBalance = -1` is
accepted and preprocessed without any rejection, and its ratio
denominator `balance + 1` is exactly zero — the +1 does not make the
denominator nonzero for every input. -/
theorem C9_counterexample :
    numCol txNeg "AccountBalance" = .ok (-1)
  ∧ ((-1 : ℚ) + 1 = 0)
  ∧ isOkE (preprocess_transaction [] txNeg) = true := by
  refine ⟨by decide, by norm_num, by decide⟩

/-- C9 (witness): the example transaction's ratio column equals
150 / (5000 + 1) and its denominator is nonzero. -/
theorem C9_witness :
    getCol (okOr (preprocess_transaction [] exTxn)) "AmountToBalanceRatio"
      = some (.num (150 / (5000 + 1)))
  ∧ ((5000:ℚ) ≠ -1 → (5000:ℚ) + 1 ≠ 0)
  ∧ (0 ≤ (5000:ℚ) → (5000:ℚ) + 1 ≠ 0) :=
  C9_ratio [] exTxn (okOr (preprocess_transaction [] exTxn)) 150 5000
    (ok_of_isOkE _ (by decide)) (by decide) (by decide)

/-- C10: batch results preserve input order with `transaction_id` equal
to the 1-based input index; the summary satisfies
processed + failed = total and fraud_detected + legitimate = processed,
and the fraud percentage is 0 (by an explicit branch, not a division)
when no item was processed successfully. -/
theorem C10_batch_summary (reg : Registry) (clf : Classifier) (txns : List Row) :
    (∀ (i : ℕ) (t : Row), txns[i]? = some t →
      ((predict_batch reg clf txns).results[i]?).map BatchItem.tid = some (i + 1))
  ∧ (predict_batch reg clf txns).summary.processed
      + (predict_batch reg clf txns).summary.failed
      = (predict_batch reg clf txns).summary.total_transactions
  ∧ (predict_batch reg clf txns).summary.fraud_detected
      + (predict_batch reg clf txns).summary.legitimate
      = (predict_batch reg clf txns).summary.processed
  ∧ ((predict_batch reg clf txns).summary.processed = 0 →
      (predict_batch reg clf txns).summary.fraud_percentage = 0) := by
  have hfil :
      ((batchResultsAux reg clf 0 txns).filter BatchItem.isOk).length ≤ txns.length := by
    calc ((batchResultsAux reg clf 0 txns).filter BatchItem.isOk).length
        ≤ (batchResultsAux reg clf 0 txns).length := List.length_filter_le _ _
      _ = txns.length := batchResultsAux_length reg clf txns 0
  have hfil2 :
      (((batchResultsAux reg clf 0 txns).filter BatchItem.isOk).filter BatchItem.fraud).length
        ≤ ((batchResultsAux reg clf 0 txns).filter BatchItem.isOk).length :=
    List.length_filter_le _ _
  refine ⟨?_, ?_, ?_, ?_⟩
  · intro i t ht
    rw [predict_batch_results, batchResultsAux_get? reg clf txns 0 i t ht]
    simp [processBatchItem_tid]
  · simp only [predict_batch]
    omega
  · simp only [predict_batch]
    omega
  · intro h0
    simp only [predict_batch] at h0 ⊢
    have : (batchResultsAux reg clf 0 txns).filter BatchItem.isOk = [] :=
      List.length_eq_zero.mp h0
    simp [this]

/-- C10 (witness): the summary identities instantiated on a concrete
two-item batch whose second item fails. -/
theorem C10_witness :
    ((predict_batch [] clf85 [exTxn, badTxn]).results[0]?).map BatchItem.tid = some 1
  ∧ (predict_batch [] clf85 [exTxn, badTxn]).summary.processed
      + (predict_batch [] clf85 [exTxn, badTxn]).summary.failed
      = (predict_batch [] clf85 [exTxn, badTxn]).summary.total_transactions
  ∧ (predict_batch [] clf85 [exTxn, badTxn]).summary.fraud_detected
      + (predict_batch [] clf85 [exTxn, badTxn]).summary.legitimate
      = (predict_batch [] clf85 [exTxn, badTxn]).summary.processed
  ∧ ((predict_batch [] clf85 [exTxn, badTxn]).summary.processed = 0 →
      (predict_batch [] clf85 [exTxn, badTxn]).summary.fraud_percentage = 0) :=
  ⟨(C10_batch_summary [] clf85 [exTxn, badTxn]).1 0 exTxn (by decide),
    (C10_batch_summary [] clf85 [exTxn, badTxn]).2.1,
    (C10_batch_summary [] clf85 [exTxn, badTxn]).2.2.1,
    (C10_batch_summary [] clf85 [exTxn, badTxn]).2.2.2⟩


/-- C1 (witness): the policy instantiated at label true, probability
0.8. -/
theorem C1_witness :
    (action true (4/5) = "BLOCK" ↔ true = true ∧ 7/10 < (4/5 : ℚ))
  ∧ (action true (4/5) = "REVIEW" ↔
      ¬(true = true ∧ 7/10 < (4/5 : ℚ)) ∧ (true = true ∨ 1/2 < (4/5 : ℚ)))
  ∧ (action true (4/5) = "ALLOW" ↔
      ¬(true = true ∧ 7/10 < (4/5 : ℚ)) ∧ ¬(true = true ∨ 1/2 < (4/5 : ℚ)))
  ∧ action true (7/10) = "REVIEW"
  ∧ (action false (4/5) = "REVIEW" ↔ 1/2 < (4/5 : ℚ)) :=
  C1_action_policy true (4/5)

/-- C2 (witness): the risk bands instantiated at probability 0.45. -/
theorem C2_witness :
    (risk_level (9/20) = "Low" ↔ (9/20 : ℚ) < 3/10)
  ∧ (risk_level (9/20) = "Medium" ↔ 3/10 ≤ (9/20 : ℚ) ∧ (9/20 : ℚ) < 6/10)
  ∧ (risk_level (9/20) = "High" ↔ 6/10 ≤ (9/20 : ℚ))
  ∧ risk_level (3/10) = "Medium"
  ∧ risk_level (6/10) = "High"
  ∧ (risk_level (9/20) = "Low" ∨ risk_level (9/20) = "Medium" ∨ risk_level (9/20) = "High") :=
  C2_risk_bands (9/20)

end FraudApp
